import Mathlib

/-!
Shallow embedding of the order-management backend (routes/orders.js,
models/Order.js, middleware/validation.js) and proofs about its order
lifecycle operations: creation with duplicate consolidation, status
changes, delivery marking, nullification, partial update and admin
soft-delete.

Conventions of the embedding:
* Mongo documents become Lean structures; ObjectIds become `Nat`
  (orders, users, items) or `String` (products, customers), matching
  how the code compares them (`toString() ===`).
* JS `Date` values are `Int` milliseconds since epoch
  (`Date.prototype.getTime`); `Math.floor` of a real division by a
  positive constant is `Int.fdiv`.
* JS numbers used for quantities are `Rat` (the code only adds them).
* Route handlers become pure functions from the request and the
  database state to a result and the new database state; a thrown /
  caught notification error becomes an `Except` parameter.
-/

deriving instance DecidableEq for Except

/-- Order / item status enum of `models/Order.js`
(`['pendiente', 'compra', 'facturado', 'nulo']`). -/
inductive Status where
  | pendiente
  | compra
  | facturado
  | nulo
deriving DecidableEq, Repr

/-- Embedded order line (`orderItemSchema` in `models/Order.js`).
`itemId` models the subdocument `_id`. -/
structure OrderItem where
  itemId : Nat
  product : String
  quantity : Rat
  unit_price : Rat := 0
  unit_of_measure : String := "unidad"
  brand : String := ""
  format : String := ""
  status : Status := .pendiente
  notes : String := ""
deriving DecidableEq, Repr

/-- Order aggregate (`orderSchema` in `models/Order.js`).
`createdAt` is the timestamp added by `timestamps: true`. -/
structure Order where
  orderId : Nat
  order_number : String
  customer : String
  items : List OrderItem
  status : Status := .pendiente
  delivery_due : Option Int := none
  delivered_at : Option Int := none
  notes : String := ""
  location : String := ""
  createdBy : Nat
  updatedBy : Option Nat := none
  createdAt : Int
deriving DecidableEq, Repr

/-- Product record, restricted to the fields `routes/orders.js` reads
(`models/Product.js` is consulted via `Product.find({_id, isActive})`
and the backfill of brand/format/unit_of_measure). -/
structure Product where
  productId : String
  name : String
  brand : String := ""
  format : String := ""
  unit_of_measure : String := "unidad"
  isActive : Bool := true
deriving DecidableEq, Repr

/-- The persistent state the order routes touch: the `orders`
collection and the product catalog. -/
structure DB where
  orders : List Order
  catalog : List Product
deriving DecidableEq, Repr

/-- Milliseconds in 24 hours (`24 * 60 * 60 * 1000`). -/
def hours24 : Int := 24 * 60 * 60 * 1000

/-- Milliseconds in one day (`1000 * 60 * 60 * 24`). -/
def msPerDay : Int := 1000 * 60 * 60 * 24

/-- The order/item status mirror: every item's status equals the
order-level status. -/
def statusInvariant (o : Order) : Prop :=
  ∀ it ∈ o.items, it.status = o.status

instance (o : Order) : Decidable (statusInvariant o) :=
  List.decidableBAll _ o.items

/-- `PATCH /api/orders/:id/status` (routes/orders.js). The Joi schema
`orderStatus` already restricts `status` to the four enum values, so
the argument is a `Status`. Sets the order status, cascades it to
every item, clears `delivered_at` when reverting to `compra` or
`pendiente`, and records the actor. -/
def changeStatus (o : Order) (s : Status) (actor : Nat) : Order :=
  let o := { o with status := s, items := o.items.map fun (it : OrderItem) => { it with status := s } }
  let o := if (s = .compra ∨ s = .pendiente) ∧ o.delivered_at.isSome
    then { o with delivered_at := none } else o
  { o with updatedBy := some actor }

/-- `PATCH /api/orders/:id/deliver` (routes/orders.js): only orders
with status `facturado` can be marked delivered. -/
def markDelivered (o : Order) (now : Int) (actor : Nat) : Except String Order :=
  if o.status ≠ .facturado then
    .error "Solo órdenes facturadas pueden marcarse como entregadas"
  else
    .ok { o with delivered_at := some now, updatedBy := some actor }

/-- Failure modes of `PATCH /api/orders/:id/nullify`: the 7-day gate
(with the actual elapsed days, as interpolated into the message) and
the status gate. -/
inductive NullifyError where
  | tooEarly (daysDiff : Int)
  | invalidTransition
deriving DecidableEq, Repr

/-- `PATCH /api/orders/:id/nullify` (routes/orders.js): age gate first
(`Math.floor((today - createdDate) / (1000*60*60*24)) < 7`), then the
status gate (`['pendiente','compra'].includes(order.status)`), then
the cascade to `nulo`. -/
def nullify (o : Order) (now : Int) (actor : Nat) : Except NullifyError Order :=
  let daysDiff := Int.fdiv (now - o.createdAt) msPerDay
  if daysDiff < 7 then
    .error (.tooEarly daysDiff)
  else if ¬ (o.status = .pendiente ∨ o.status = .compra) then
    .error .invalidTransition
  else
    .ok { o with
      status := .nulo,
      items := o.items.map fun (it : OrderItem) => { it with status := .nulo },
      updatedBy := some actor }

/-- Body of `PATCH /api/orders/:id` (no Joi validation on this route).
A `status` string outside the four enum values behaves exactly like an
absent one (the `includes` guard skips the whole status block), so it
is modelled as `none`. -/
structure PatchBody where
  status : Option Status := none
  location : Option String := none
  notes : Option String := none
  delivery_due : Option Int := none
  customer : Option String := none
  items : Option (List OrderItem) := none

/-- `PATCH /api/orders/:id` (routes/orders.js) is decomposed into one
function per field block, applied in the source's order. This is the
status block: cascade to every item plus the delivered_at clearing,
guarded by `status && [...].includes(status)`. -/
def applyStatusPatch (o : Order) : Option Status → Order
  | some s =>
    let o := { o with status := s, items := o.items.map fun (it : OrderItem) => { it with status := s } }
    if (s = Status.compra ∨ s = Status.pendiente) ∧ o.delivered_at.isSome
      then { o with delivered_at := none } else o
  | none => o

/-- `if (location !== undefined) order.location = location`. -/
def applyLocationPatch (o : Order) : Option String → Order
  | some l => { o with location := l }
  | none => o

/-- `if (notes !== undefined) order.notes = notes`. -/
def applyNotesPatch (o : Order) : Option String → Order
  | some n => { o with notes := n }
  | none => o

/-- `if (delivery_due) order.delivery_due = new Date(delivery_due)`. -/
def applyDeliveryDuePatch (o : Order) : Option Int → Order
  | some d => { o with delivery_due := some d }
  | none => o

/-- `if (customer) order.customer = customer`. -/
def applyCustomerPatch (o : Order) : Option String → Order
  | some c => { o with customer := c }
  | none => o

/-- `if (items && Array.isArray(items)) order.items = items`. -/
def applyItemsPatch (o : Order) : Option (List OrderItem) → Order
  | some its => { o with items := its }
  | none => o

/-- The whole handler: the field updates in the source's order, then
`updatedBy`. -/
def partialUpdate (o : Order) (b : PatchBody) (actor : Nat) : Order :=
  { applyItemsPatch (applyCustomerPatch (applyDeliveryDuePatch (applyNotesPatch
      (applyLocationPatch (applyStatusPatch o b.status) b.location) b.notes)
      b.delivery_due) b.customer) b.items with
    updatedBy := some actor }

/-- `DELETE /api/orders/:id` (routes/orders.js): soft delete via
`findByIdAndUpdate(id, { status: 'nulo', updatedBy })` — only those
two fields are written; items are untouched and there is no age or
status gate. -/
def deleteOrder (o : Order) (actor : Nat) : Order :=
  { o with status := .nulo, updatedBy := some actor }

/-- Incoming order line as allowed by the Joi `order` schema in
`middleware/validation.js` (`product`, `quantity`, optional `notes`;
unknown keys are rejected by Joi). -/
structure ReqItem where
  product : String
  quantity : Rat
  notes : String := ""
deriving DecidableEq, Repr

/-- Body of `POST /api/orders` as allowed by the Joi `order` schema
(`customer`, `items` 1..20, optional `delivery_due`, `order_number`,
`notes`, `location`). An absent `order_number` is `""` (both absent
and empty skip the pre-save auto-assignment, since `''` is falsy). -/
structure OrderRequest where
  customer : String
  items : List ReqItem
  delivery_due : Option Int := none
  order_number : String := ""
  notes : String := ""
  location : String := ""
deriving DecidableEq, Repr

/-- One entry of the `duplicates` array built by `POST /api/orders`. -/
structure DupRecord where
  orderId : Nat
  orderNumber : String
  itemId : Nat
  productId : String
  productName : String
  existingQty : Rat
  newQty : Rat
  unitOfMeasure : String
deriving DecidableEq, Repr

/-- `Product.find({ _id: { $in: productIds }, isActive: true })`. -/
def activeProducts (catalog : List Product) (productIds : List String) : List Product :=
  catalog.filter fun p => productIds.contains p.productId && p.isActive

/-- `Order.find({ customer, createdAt: { $gte: now − 24h }, status:
{ $in: ['pendiente','compra'] } })`. -/
def recentOrders (orders : List Order) (customer : String) (now : Int) : List Order :=
  orders.filter fun o =>
    decide (o.customer = customer) &&
    decide (now - hours24 ≤ o.createdAt) &&
    (decide (o.status = Status.pendiente) || decide (o.status = Status.compra))

/-- The `order.items.find(existing => existing.product === item.product
&& (existing.status === 'pendiente' || existing.status === 'compra'))`
predicate. -/
def dupItemMatch (item : ReqItem) (ex : OrderItem) : Bool :=
  decide (ex.product = item.product) &&
  (decide (ex.status = Status.pendiente) || decide (ex.status = Status.compra))

/-- The duplicate record pushed for a matching `(item, order,
existingItem)` triple, including the `product?.name ||
'Producto no encontrado'` lookup. -/
def mkDup (products : List Product) (o : Order) (ex : OrderItem) (item : ReqItem) : DupRecord :=
  { orderId := o.orderId
    orderNumber := o.order_number
    itemId := ex.itemId
    productId := item.product
    productName :=
      match products.find? (fun p => decide (p.productId = item.product)) with
      | some p => p.name
      | none => "Producto no encontrado"
    existingQty := ex.quantity
    newQty := item.quantity
    unitOfMeasure := ex.unit_of_measure }

/-- Inner loop of the duplicate scan: one request item against every
recent order. -/
def scanOrders (products : List Product) (item : ReqItem) : List Order → List DupRecord
  | [] => []
  | o :: rest =>
    match o.items.find? (dupItemMatch item) with
    | some ex => mkDup products o ex item :: scanOrders products item rest
    | none => scanOrders products item rest

/-- The full double loop filling the `duplicates` array. -/
def computeDuplicates (products : List Product) (ros : List Order) : List ReqItem → List DupRecord
  | [] => []
  | item :: rest => scanOrders products item ros ++ computeDuplicates products ros rest

/-- `order.items[itemIndex].quantity += dup.newQty` where `itemIndex =
order.items.findIndex(item => item._id === dup.itemId)`: bump the
first item with the given id; no change when the id is absent
(`itemIndex === -1`). -/
def bumpFirstItem (iid : Nat) (q : Rat) : List OrderItem → List OrderItem
  | [] => []
  | it :: rest =>
    if it.itemId = iid then { it with quantity := it.quantity + q } :: rest
    else it :: bumpFirstItem iid q rest

/-- One iteration of the consolidation loop: `Order.findById(dup.orderId)`
followed by the in-place quantity bump and `order.save()`. -/
def applyMergeOrders (d : DupRecord) : List Order → List Order
  | [] => []
  | o :: rest =>
    if o.orderId = d.orderId then
      { o with items := bumpFirstItem d.itemId d.newQty o.items } :: rest
    else o :: applyMergeOrders d rest

/-- The whole `for (const dup of duplicates)` consolidation loop. -/
def mergeAll (orders : List Order) (dups : List DupRecord) : List Order :=
  dups.foldl (fun os d => applyMergeOrders d os) orders

/-- Decimal digits of a natural number, most significant first —
the JS `String(number)` conversion used by the pre-save hook
(fuel-based so that it is structural). -/
def natToDecimalAux : Nat → Nat → List Char
  | 0, _ => []
  | fuel + 1, n =>
    if n < 10 then [Char.ofNat (48 + n)]
    else natToDecimalAux fuel (n / 10) ++ [Char.ofNat (48 + n % 10)]

/-- `String(n)` for a natural number. -/
def natToDecimal (n : Nat) : List Char :=
  natToDecimalAux (n + 1) n

/-- `str.padStart(width, c)` on the character list: prepend `c` up to
`width`; a string already at least `width` long is unchanged. -/
def padStartList (l : List Char) (width : Nat) (c : Char) : List Char :=
  List.replicate (width - l.length) c ++ l

/-- The pre-save hook of `models/Order.js`:
`` `OC-${String(count + 1).padStart(6, '0')}` `` where `count` is the
total number of order documents at save time. -/
def assignOrderNumber (count : Nat) : String :=
  String.mk (['O', 'C', '-'] ++ padStartList (natToDecimal (count + 1)) 6 '0')

/-- Value of a digit string (used to read the numeric part back out of
an order number). -/
def digitsToNat (l : List Char) : Nat :=
  l.foldl (fun acc c => acc * 10 + (c.toNat - 48)) 0

/-- Numeric part of an `OC-NNNNNN` order number. -/
def orderNumberValue (s : String) : Nat :=
  digitsToNat (s.data.drop 3)

/-- Standard lexicographic order on character lists (the order JS `<`
uses on strings). -/
def lexLtChars : List Char → List Char → Bool
  | [], [] => false
  | [], _ :: _ => true
  | _ :: _, [] => false
  | a :: as, b :: bs => if a < b then true else if b < a then false else lexLtChars as bs

/-- Lexicographic `<` on strings. -/
def strLexLt (a b : String) : Bool :=
  lexLtChars a.data b.data

/-- Summary returned by `sendNewOrderNotification` (emailService):
per-recipient failures are only counted, never thrown. -/
structure EmailSummary where
  sent : Nat := 0
  failed : Nat := 0
  totalConfigured : Nat := 0
deriving DecidableEq, Repr

/-- Outcome of `POST /api/orders`: the 400 products-unavailable
response, the 200 merged response, or the 201 created response. -/
inductive CreateResult where
  | invalidReference (message : String)
  | merged (message : String) (mergedCount : Nat) (consolidatedOrders : List String)
  | created (order : Order)
deriving DecidableEq, Repr

/-- Backfill of a request item into an embedded order item
(`brand: item.brand || product.brand`, etc.; the Joi schema strips
brand/format/unit_of_measure from request items, so the product's
values are always used). Mongo assigns the subdocument ids; they are
modelled by the item's position. -/
def backfill (products : List Product) (pos : Nat) (it : ReqItem) : OrderItem :=
  match products.find? (fun p => decide (p.productId = it.product)) with
  | some p =>
    { itemId := pos, product := it.product, quantity := it.quantity,
      brand := p.brand, format := p.format,
      unit_of_measure := p.unit_of_measure, notes := it.notes }
  | none =>
    { itemId := pos, product := it.product, quantity := it.quantity,
      notes := it.notes }

/-- The constant 400 message of the product-availability check. -/
def productsUnavailableMsg : String := "Uno o más productos no están disponibles"

/-- The constant 200 message of the consolidation branch. -/
def mergedMsg : String :=
  "Productos agregados al pedido existente del mismo cliente (últimas 24h)"

/-- The order persisted by the normal-creation branch of
`POST /api/orders`: caller data plus backfilled items, default status
`pendiente` everywhere, and the pre-save hook's order number (only
when the caller supplied none — `''` is falsy). `orderCount` is the
`countDocuments()` value read by the hook. -/
def newOrderOf (products : List Product) (orderCount : Nat) (req : OrderRequest)
    (now : Int) (actor freshOrderId : Nat) : Order :=
  { orderId := freshOrderId
    order_number :=
      if req.order_number = "" then assignOrderNumber orderCount else req.order_number
    customer := req.customer
    items := (req.items.enum).map fun p => backfill products p.1 p.2
    status := .pendiente
    delivery_due := req.delivery_due
    notes := req.notes
    location := req.location
    createdBy := actor
    createdAt := now }

/-- The console line produced by the notification try/catch: the
summary line on a returned summary, the catch's error line on a
thrown error. -/
def notifyLog : Except String EmailSummary → String
  | .ok s =>
    "📧 Notificaciones enviadas: " ++ toString s.sent ++ " exitosas, " ++
      toString s.failed ++ " fallidas de " ++ toString s.totalConfigured ++
      " configurados"
  | .error e => "Error enviando notificaciones por email: " ++ e

/-- `POST /api/orders` (routes/orders.js). Inputs beyond the request:
the database, the current time, the acting user, a fresh ObjectId for
a possibly created order, and the outcome of the notification dispatch
(`.error` models a thrown error, `.ok` a summary possibly counting
per-recipient failures). Returns the response, the new database state
and the console log lines of the notification try/catch.

`orderDuplicates` is the `duplicates` array the handler builds from
the 24-hour lookback query. -/
def orderDuplicates (db : DB) (req : OrderRequest) (now : Int) : List DupRecord :=
  computeDuplicates (activeProducts db.catalog (req.items.map (·.product)))
    (recentOrders db.orders req.customer now) req.items

def createOrder (db : DB) (req : OrderRequest) (now : Int) (actor : Nat)
    (freshOrderId : Nat) (notify : Except String EmailSummary) :
    CreateResult × DB × List String :=
  let productIds := req.items.map (·.product)
  let products := activeProducts db.catalog productIds
  if products.length ≠ productIds.length then
    (.invalidReference productsUnavailableMsg, db, [])
  else
    let dups := orderDuplicates db req now
    if 0 < dups.length then
      (.merged mergedMsg dups.length (dups.map (·.orderNumber)),
       { db with orders := mergeAll db.orders dups }, [])
    else
      let newOrder := newOrderOf products db.orders.length req now actor freshOrderId
      (.created newOrder, { db with orders := db.orders ++ [newOrder] },
       [notifyLog notify])

/-! ## Helper lemmas -/

/-- Items produced by the status cascade all carry the new status. -/
theorem mem_map_setStatus (items : List OrderItem) (s : Status) (it : OrderItem)
    (h : it ∈ items.map fun (i : OrderItem) => { i with status := s }) :
    it.status = s := by
  obtain ⟨i, _, rfl⟩ := List.mem_map.mp h
  rfl

/-- Backfilled items start with the default status `pendiente`. -/
theorem backfill_status (products : List Product) (pos : Nat) (it : ReqItem) :
    (backfill products pos it).status = .pendiente := by
  rw [backfill]
  split <;> rfl

/-- The quantity bump does not touch item statuses. -/
theorem bumpFirstItem_map_status (iid : Nat) (q : Rat) (items : List OrderItem) :
    (bumpFirstItem iid q items).map (·.status) = items.map (·.status) := by
  induction items with
  | nil => rfl
  | cons it rest ih =>
    rw [bumpFirstItem]
    split <;> simp [ih]

/-- Bumping a quantity preserves the status mirror. -/
theorem statusInvariant_bump (o : Order) (iid : Nat) (q : Rat)
    (h : statusInvariant o) :
    statusInvariant { o with items := bumpFirstItem iid q o.items } := by
  intro it hit
  have hmem : it.status ∈ (bumpFirstItem iid q o.items).map (·.status) :=
    List.mem_map_of_mem _ hit
  rw [bumpFirstItem_map_status] at hmem
  obtain ⟨it₀, h₀, hs⟩ := List.mem_map.mp hmem
  exact hs ▸ h it₀ h₀

/-- One consolidation step preserves the status mirror of every stored
order. -/
theorem applyMergeOrders_statusInvariant (d : DupRecord) (os : List Order)
    (h : ∀ o ∈ os, statusInvariant o) :
    ∀ o' ∈ applyMergeOrders d os, statusInvariant o' := by
  induction os with
  | nil => simp [applyMergeOrders]
  | cons o rest ih =>
    rw [applyMergeOrders]
    split
    · intro o' ho'
      rcases List.mem_cons.mp ho' with h1 | h2
      · exact h1 ▸ statusInvariant_bump o _ _ (h o (by simp))
      · exact h o' (by simp [h2])
    · intro o' ho'
      rcases List.mem_cons.mp ho' with h1 | h2
      · exact h1 ▸ h o (by simp)
      · exact ih (fun x hx => h x (by simp [hx])) o' h2

/-- The whole consolidation loop preserves the status mirror of every
stored order. -/
theorem mergeAll_statusInvariant (dups : List DupRecord) (os : List Order)
    (h : ∀ o ∈ os, statusInvariant o) :
    ∀ o' ∈ mergeAll os dups, statusInvariant o' := by
  induction dups generalizing os with
  | nil => simpa [mergeAll] using h
  | cons d rest ih =>
    simp only [mergeAll, List.foldl_cons]
    exact ih _ (applyMergeOrders_statusInvariant d os h)

/-- The new order built by the creation branch satisfies the status
mirror (order status and every item status are `pendiente`). -/
theorem newOrderOf_statusInvariant (products : List Product) (orderCount : Nat)
    (req : OrderRequest) (now : Int) (actor fid : Nat) :
    statusInvariant (newOrderOf products orderCount req now actor fid) := by
  intro it hit
  simp only [newOrderOf] at hit ⊢
  obtain ⟨p, _, rfl⟩ := List.mem_map.mp hit
  exact backfill_status products p.1 p.2

/-- When the availability check passes and no duplicate candidate is
found, `POST /api/orders` takes the normal-creation branch. -/
theorem createOrder_eq_created (db : DB) (req : OrderRequest) (now : Int)
    (actor fid : Nat) (notify : Except String EmailSummary)
    (hok : (activeProducts db.catalog (req.items.map (·.product))).length =
      (req.items.map (·.product)).length)
    (hnodup : computeDuplicates (activeProducts db.catalog (req.items.map (·.product)))
      (recentOrders db.orders req.customer now) req.items = []) :
    createOrder db req now actor fid notify =
      (.created (newOrderOf (activeProducts db.catalog (req.items.map (·.product)))
          db.orders.length req now actor fid),
       { db with orders := db.orders ++
          [newOrderOf (activeProducts db.catalog (req.items.map (·.product)))
            db.orders.length req now actor fid] },
       [notifyLog notify]) := by
  simp only [createOrder, orderDuplicates]
  rw [hok, hnodup]
  simp

/-- The status cascade of `changeStatus`, seen on the items. -/
theorem changeStatus_items (o : Order) (s : Status) (actor : Nat) :
    (changeStatus o s actor).items =
      o.items.map fun (it : OrderItem) => { it with status := s } := by
  simp only [changeStatus]
  split <;> rfl

/-- The order-level status after `changeStatus`. -/
theorem changeStatus_status (o : Order) (s : Status) (actor : Nat) :
    (changeStatus o s actor).status = s := by
  simp only [changeStatus]
  split <;> rfl

/-- `changeStatus` re-establishes the status mirror unconditionally. -/
theorem changeStatus_statusInvariant (o : Order) (s : Status) (actor : Nat) :
    statusInvariant (changeStatus o s actor) := by
  intro it hit
  rw [changeStatus_items] at hit
  rw [changeStatus_status]
  exact mem_map_setStatus o.items s it hit

/-- A successful `nullify` re-establishes the status mirror. -/
theorem nullify_statusInvariant (o : Order) (now : Int) (actor : Nat)
    (o' : Order) (h : nullify o now actor = .ok o') :
    statusInvariant o' := by
  simp only [nullify] at h
  split at h
  · exact absurd h (by simp)
  · split at h
    · exact absurd h (by simp)
    · cases h
      intro it hit
      exact mem_map_setStatus o.items .nulo it hit

/-- The status block sets the order-level status. -/
theorem applyStatusPatch_some_status (o : Order) (s : Status) :
    (applyStatusPatch o (some s)).status = s := by
  simp only [applyStatusPatch]
  split <;> rfl

/-- The status block cascades the status to every item. -/
theorem applyStatusPatch_some_items (o : Order) (s : Status) :
    (applyStatusPatch o (some s)).items =
      o.items.map fun (it : OrderItem) => { it with status := s } := by
  simp only [applyStatusPatch]
  split <;> rfl

/-- The location/notes/delivery_due/customer blocks touch neither the
status nor the items. -/
theorem applyFieldPatches_status_items (o : Order) (bl bn : Option String)
    (bd : Option Int) (bc : Option String) :
    ((applyCustomerPatch (applyDeliveryDuePatch (applyNotesPatch
        (applyLocationPatch o bl) bn) bd) bc).status = o.status ∧
     (applyCustomerPatch (applyDeliveryDuePatch (applyNotesPatch
        (applyLocationPatch o bl) bn) bd) bc).items = o.items) := by
  cases bl <;> cases bn <;> cases bd <;> cases bc <;> exact ⟨rfl, rfl⟩

/-- `partialUpdate` re-establishes the status mirror whenever a valid
status is supplied and items are not replaced wholesale. -/
theorem partialUpdate_statusInvariant (o : Order) (b : PatchBody) (actor : Nat)
    (s : Status) (hs : b.status = some s) (hi : b.items = none) :
    statusInvariant (partialUpdate o b actor) := by
  intro it hit
  simp only [partialUpdate, hs, hi, applyItemsPatch] at hit ⊢
  rw [(applyFieldPatches_status_items _ b.location b.notes b.delivery_due b.customer).2,
    applyStatusPatch_some_items] at hit
  rw [(applyFieldPatches_status_items _ b.location b.notes b.delivery_due b.customer).1,
    applyStatusPatch_some_status]
  exact mem_map_setStatus o.items s it hit

/-- `markDelivered` preserves the status mirror (it touches neither
status field). -/
theorem markDelivered_statusInvariant (o : Order) (now : Int) (actor : Nat)
    (h : statusInvariant o) (o' : Order)
    (hok : markDelivered o now actor = .ok o') :
    statusInvariant o' := by
  simp only [markDelivered] at hok
  split at hok
  · exact absurd hok (by simp)
  · cases hok
    intro it hit
    exact h it hit

/-- An order returned through the `created` response satisfies the
status mirror. -/
theorem createOrder_created_statusInvariant (db : DB) (req : OrderRequest)
    (now : Int) (actor fid : Nat) (notify : Except String EmailSummary)
    (newO : Order) (db' : DB) (log : List String)
    (h : createOrder db req now actor fid notify = (.created newO, db', log)) :
    statusInvariant newO := by
  simp only [createOrder] at h
  split at h
  · simp at h
  · split at h
    · simp at h
    · obtain ⟨h1, -, -⟩ := Prod.mk.injEq .. ▸ h
      simp only [CreateResult.created.injEq] at h1
      exact h1.symm ▸ h1 ▸ newOrderOf_statusInvariant _ _ _ _ _ _

/-- Whatever branch `POST /api/orders` takes, every order stored
afterwards satisfies the status mirror, provided every stored order
satisfied it before. -/
theorem createOrder_db_statusInvariant (db : DB) (req : OrderRequest)
    (now : Int) (actor fid : Nat) (notify : Except String EmailSummary)
    (h : ∀ o ∈ db.orders, statusInvariant o) :
    ∀ o' ∈ (createOrder db req now actor fid notify).2.1.orders,
      statusInvariant o' := by
  simp only [createOrder]
  split
  · simpa using h
  · split
    · simpa using mergeAll_statusInvariant _ _ h
    · intro o' ho'
      simp only [List.mem_append, List.mem_singleton] at ho'
      rcases ho' with h1 | h2
      · exact h o' h1
      · exact h2 ▸ newOrderOf_statusInvariant _ _ _ _ _ _

/-! ## Claim C1 -/

/-- C1 (amended): immediately after `changeStatus`, a successful
`nullify`, a `partialUpdate` that supplies a valid status and does not
replace items, and the creation branch of `createOrder`, the
order-level status equals the status of every item; `markDelivered`
and the consolidation writes of `createOrder` preserve the equality.
(The admin delete, excluded here, breaks it — see the
counterexample.) -/
theorem claim_C1_amended (o : Order) (s : Status) (actor : Nat) (now : Int)
    (b : PatchBody) (db : DB) (req : OrderRequest) (fid : Nat)
    (notify : Except String EmailSummary) :
    statusInvariant (changeStatus o s actor) ∧
    (∀ o', nullify o now actor = .ok o' → statusInvariant o') ∧
    (∀ s', b.status = some s' → b.items = none →
      statusInvariant (partialUpdate o b actor)) ∧
    (∀ newO db' log, createOrder db req now actor fid notify = (.created newO, db', log) →
      statusInvariant newO) ∧
    (statusInvariant o → ∀ o', markDelivered o now actor = .ok o' → statusInvariant o') ∧
    ((∀ o₀ ∈ db.orders, statusInvariant o₀) →
      ∀ o' ∈ (createOrder db req now actor fid notify).2.1.orders, statusInvariant o') :=
  ⟨changeStatus_statusInvariant o s actor,
   fun o' h => nullify_statusInvariant o now actor o' h,
   fun s' hs hi => partialUpdate_statusInvariant o b actor s' hs hi,
   fun newO db' log h =>
     createOrder_created_statusInvariant db req now actor fid notify newO db' log h,
   fun hinv o' h => markDelivered_statusInvariant o now actor hinv o' h,
   fun hall => createOrder_db_statusInvariant db req now actor fid notify hall⟩

/-- An order whose status mirror holds before the admin delete. -/
def mirrorOrder : Order :=
  { orderId := 1, order_number := "OC-000001", customer := "C",
    items := [{ itemId := 0, product := "P", quantity := 1 }],
    createdBy := 1, createdAt := 0 }

/-- C1 (counterexample): the admin delete writes only the order-level
status, so afterwards the order-level status (`nulo`) differs from the
untouched item status (`pendiente`) — the claimed invariant fails for
this write. -/
theorem claim_C1_counterexample :
    ¬ statusInvariant (deleteOrder mirrorOrder 1) := by decide

/-- `mirrorOrder` after a successful nullification. -/
def mirrorOrderNulled : Order :=
  { orderId := 1, order_number := "OC-000001", customer := "C",
    items := [{ itemId := 0, product := "P", quantity := 1, status := .nulo }],
    status := .nulo, createdBy := 1, updatedBy := some 5, createdAt := 0 }

/-- An invoiced order with its mirrored item status and its state
after being marked delivered. -/
def invoicedMirrorOrder : Order :=
  { orderId := 3, order_number := "OC-000003", customer := "C",
    items := [{ itemId := 0, product := "P", quantity := 1, status := .facturado }],
    status := .facturado, createdBy := 1, createdAt := 0 }

/-- `invoicedMirrorOrder` after `markDelivered` at time 50. -/
def invoicedMirrorOrderDelivered : Order :=
  { orderId := 3, order_number := "OC-000003", customer := "C",
    items := [{ itemId := 0, product := "P", quantity := 1, status := .facturado }],
    status := .facturado, delivered_at := some 50, createdBy := 1,
    updatedBy := some 5, createdAt := 0 }

/-- A patch carrying only a valid status. -/
def w1Patch : PatchBody := { status := some .facturado }

/-- Concrete creation scenario used to witness the creation branch. -/
def w1Product : Product := { productId := "p1", name := "Widget" }

/-- Database for the creation witness: empty orders, one product. -/
def w1DB : DB := { orders := [], catalog := [w1Product] }

/-- Request for the creation witness. -/
def w1Req : OrderRequest := { customer := "c1", items := [{ product := "p1", quantity := 4 }] }

/-- The order `createOrder w1DB w1Req 0 5 42` persists. -/
def w1Created : Order :=
  { orderId := 42, order_number := "OC-000001", customer := "c1",
    items := [{ itemId := 0, product := "p1", quantity := 4 }],
    createdBy := 5, createdAt := 0 }

/-- Witness for C1: every hypothesis of the amended claim discharged
at concrete inputs. -/
theorem claim_C1_witness :
    statusInvariant (changeStatus mirrorOrder .compra 5) ∧
    statusInvariant mirrorOrderNulled ∧
    statusInvariant (partialUpdate mirrorOrder w1Patch 5) ∧
    statusInvariant w1Created ∧
    statusInvariant invoicedMirrorOrderDelivered ∧
    (∀ o' ∈ (createOrder w1DB w1Req 0 5 42 (.ok {})).2.1.orders, statusInvariant o') :=
  ⟨(claim_C1_amended mirrorOrder .compra 5 0 w1Patch w1DB w1Req 42 (.ok {})).1,
   (claim_C1_amended mirrorOrder .compra 5 (8 * msPerDay) w1Patch w1DB w1Req 42 (.ok {})).2.1
     mirrorOrderNulled (by decide),
   (claim_C1_amended mirrorOrder .compra 5 0 w1Patch w1DB w1Req 42 (.ok {})).2.2.1
     .facturado rfl rfl,
   (claim_C1_amended mirrorOrder .compra 5 0 w1Patch w1DB w1Req 42
     (.ok {})).2.2.2.1 w1Created
     { orders := [w1Created], catalog := [w1Product] }
     ["📧 Notificaciones enviadas: 0 exitosas, 0 fallidas de 0 configurados"] (by decide),
   (claim_C1_amended invoicedMirrorOrder .compra 5 50 w1Patch w1DB w1Req 42 (.ok {})).2.2.2.2.1
     (by decide) invoicedMirrorOrderDelivered (by decide),
   (claim_C1_amended mirrorOrder .compra 5 0 w1Patch w1DB w1Req 42 (.ok {})).2.2.2.2.2
     (by simp [w1DB])⟩

/-! ## Claim C10 -/

/-- C10: the admin delete succeeds for every existing order with no
age gate and no status gate, sets the order-level status to `nulo`,
records the actor, and leaves every item (in particular every item
status) unchanged. -/
theorem claim_C10_admin_delete (o : Order) (actor : Nat) :
    (deleteOrder o actor).status = .nulo ∧
    (deleteOrder o actor).items = o.items ∧
    (deleteOrder o actor).createdAt = o.createdAt ∧
    (deleteOrder o actor).updatedBy = some actor :=
  ⟨rfl, rfl, rfl, rfl⟩

/-! ## Claim C4 -/

/-- An invoiced order three days old. -/
def invoicedYoungOrder : Order :=
  { orderId := 2, order_number := "OC-000002", customer := "C",
    items := [{ itemId := 0, product := "P", quantity := 1, status := .facturado }],
    status := .facturado, createdBy := 1, createdAt := 0 }

/-- C4 (counterexample): for an invoiced order only 3 days old,
nullification does NOT fail with the invalid-transition error — the
age gate runs first and reports `TooEarly 3`, so "InvalidTransition
regardless of age" is false. -/
theorem claim_C4_counterexample :
    invoicedYoungOrder.status = .facturado ∧
    nullify invoicedYoungOrder (3 * msPerDay) 1 ≠ .error .invalidTransition ∧
    nullify invoicedYoungOrder (3 * msPerDay) 1 = .error (.tooEarly 3) := by
  refine ⟨rfl, ?_, ?_⟩ <;> decide

/-- C4 (amended): for an order whose status is invoiced or nullified,
`nullify` fails — with `InvalidTransition` when the order has passed
the 7-day age gate; younger such orders fail with `TooEarly` instead
(the age gate runs first). No failure writes anything. -/
theorem claim_C4_amended (o : Order) (now : Int) (actor : Nat)
    (hstatus : o.status = .facturado ∨ o.status = .nulo)
    (hage : 7 ≤ Int.fdiv (now - o.createdAt) msPerDay) :
    nullify o now actor = .error .invalidTransition := by
  simp only [nullify]
  rw [if_neg (by omega), if_pos]
  rcases hstatus with h | h <;> rw [h] <;> simp

/-- Witness for C4: an invoiced order eight days old. -/
theorem claim_C4_witness :
    (invoicedYoungOrder.status = .facturado ∨ invoicedYoungOrder.status = .nulo) ∧
    7 ≤ Int.fdiv (8 * msPerDay - invoicedYoungOrder.createdAt) msPerDay ∧
    nullify invoicedYoungOrder (8 * msPerDay) 1 = .error .invalidTransition :=
  ⟨Or.inl rfl, by decide,
   claim_C4_amended invoicedYoungOrder (8 * msPerDay) 1 (Or.inl rfl) (by decide)⟩

/-! ## Claim C5 -/

/-- C5: `nullify` computes `daysSinceCreation = floor((now − createdAt)
/ 1 day)` and fails with `TooEarly`, reporting that value, whenever it
is below 7; at exactly day 7 a pending or purchasing order is
nullified, order status and every item status becoming `nulo`. -/
theorem claim_C5_age_gate (o : Order) (now : Int) (actor : Nat) :
    (Int.fdiv (now - o.createdAt) msPerDay < 7 →
      nullify o now actor = .error (.tooEarly (Int.fdiv (now - o.createdAt) msPerDay))) ∧
    (Int.fdiv (now - o.createdAt) msPerDay = 7 →
      (o.status = .pendiente ∨ o.status = .compra) →
      ∃ o', nullify o now actor = .ok o' ∧ o'.status = .nulo ∧
        ∀ it ∈ o'.items, it.status = .nulo) := by
  constructor
  · intro h
    simp only [nullify]
    rw [if_pos h]
  · intro hage hstatus
    simp only [nullify]
    rw [if_neg (by omega), if_neg (not_not_intro hstatus)]
    refine ⟨_, rfl, rfl, ?_⟩
    intro it hit
    exact mem_map_setStatus o.items .nulo it hit

/-- A pending order, for the C5 witness. -/
def pendingOldOrder : Order :=
  { orderId := 4, order_number := "OC-000004", customer := "C",
    items := [{ itemId := 0, product := "P", quantity := 1 }],
    createdBy := 1, createdAt := 0 }

/-- Witness for C5: at 3 days the gate reports `TooEarly 3`; at
exactly 7 days a pending order is nullified. -/
theorem claim_C5_witness :
    (Int.fdiv (3 * msPerDay - pendingOldOrder.createdAt) msPerDay < 7 ∧
      nullify pendingOldOrder (3 * msPerDay) 1 =
        .error (.tooEarly (Int.fdiv (3 * msPerDay - pendingOldOrder.createdAt) msPerDay))) ∧
    (Int.fdiv (7 * msPerDay - pendingOldOrder.createdAt) msPerDay = 7 ∧
      ∃ o', nullify pendingOldOrder (7 * msPerDay) 1 = .ok o' ∧ o'.status = .nulo ∧
        ∀ it ∈ o'.items, it.status = .nulo) :=
  ⟨⟨by decide, (claim_C5_age_gate pendingOldOrder (3 * msPerDay) 1).1 (by decide)⟩,
   ⟨by decide, (claim_C5_age_gate pendingOldOrder (7 * msPerDay) 1).2 (by decide)
     (Or.inl rfl)⟩⟩

/-! ## Claim C8 -/

/-- Reading a digit character written by `natToDecimalAux`. -/
theorem char_digit_toNat (n : Nat) (h : n < 10) :
    (Char.ofNat (48 + n)).toNat = 48 + n := by
  interval_cases n <;> decide

/-- `digitsToNat` over a one-digit extension. -/
theorem digitsToNat_append_digit (l : List Char) (c : Char) :
    digitsToNat (l ++ [c]) = digitsToNat l * 10 + (c.toNat - 48) := by
  simp [digitsToNat, List.foldl_append]

/-- The decimal printer round-trips with `digitsToNat` (given enough
fuel). -/
theorem digitsToNat_natToDecimalAux (fuel : Nat) :
    ∀ n, n < fuel → digitsToNat (natToDecimalAux fuel n) = n := by
  induction fuel with
  | zero => intro n h; omega
  | succ fuel ih =>
    intro n h
    rw [natToDecimalAux]
    split
    · rename_i h10
      simp [digitsToNat, char_digit_toNat n h10]
    · rename_i h10
      rw [digitsToNat_append_digit,
        ih (n / 10) (by omega),
        char_digit_toNat (n % 10) (Nat.mod_lt _ (by norm_num))]
      omega

/-- The decimal printer round-trips with `digitsToNat`. -/
theorem digitsToNat_natToDecimal (n : Nat) :
    digitsToNat (natToDecimal n) = n :=
  digitsToNat_natToDecimalAux (n + 1) n (Nat.lt_succ_self n)

/-- Leading zeros do not change the value of a digit string. -/
theorem digitsToNat_replicate_zero (k : Nat) (l : List Char) :
    digitsToNat (List.replicate k '0' ++ l) = digitsToNat l := by
  induction k with
  | zero => rfl
  | succ k ih =>
    rw [List.replicate_succ, List.cons_append]
    simpa [digitsToNat] using ih

/-- The numeric part of an auto-assigned order number is the order
count at creation plus one. -/
theorem orderNumberValue_assign (n : Nat) :
    orderNumberValue (assignOrderNumber n) = n + 1 := by
  rw [show orderNumberValue (assignOrderNumber n) =
      digitsToNat (padStartList (natToDecimal (n + 1)) 6 '0') from rfl]
  rw [padStartList, digitsToNat_replicate_zero, digitsToNat_natToDecimal]

/-- Inversion of a `created` response: the order is the one built by
the creation branch and the database gained exactly that order. -/
theorem createOrder_created_inv (db : DB) (req : OrderRequest) (now : Int)
    (actor fid : Nat) (notify : Except String EmailSummary) (newO : Order)
    (db' : DB) (log : List String)
    (h : createOrder db req now actor fid notify = (.created newO, db', log)) :
    newO = newOrderOf (activeProducts db.catalog (req.items.map (·.product)))
      db.orders.length req now actor fid ∧
    db' = { db with orders := db.orders ++ [newO] } := by
  simp only [createOrder] at h
  split at h
  · simp at h
  · split at h
    · simp at h
    · rw [Prod.mk.injEq, Prod.mk.injEq] at h
      obtain ⟨h1, h2, h3⟩ := h
      simp only [CreateResult.created.injEq] at h1
      subst h1
      exact ⟨rfl, h2.symm⟩

/-- C8 (amended): each auto-assigned order number is `OC-` plus
`String(count + 1)` zero-padded to at least six digits, where `count`
is the order count at creation (so a created order with no
caller-supplied number gets `assignOrderNumber count` and the
collection grows by one); the numbers are unique and strictly
increasing *numerically*. (Strict lexicographic growth fails at the
1,000,000th order — see the counterexample — and a caller-supplied
non-empty `order_number` suppresses the auto-assignment.) -/
theorem claim_C8_amended (db : DB) (req : OrderRequest) (now : Int)
    (actor fid : Nat) (notify : Except String EmailSummary) (newO : Order)
    (db' : DB) (log : List String) (m n : Nat) :
    (createOrder db req now actor fid notify = (.created newO, db', log) →
      req.order_number = "" →
      newO.order_number = assignOrderNumber db.orders.length ∧
      db'.orders.length = db.orders.length + 1) ∧
    orderNumberValue (assignOrderNumber n) = n + 1 ∧
    (m < n →
      orderNumberValue (assignOrderNumber m) < orderNumberValue (assignOrderNumber n) ∧
      assignOrderNumber m ≠ assignOrderNumber n) := by
  refine ⟨?_, orderNumberValue_assign n, ?_⟩
  · intro h hnum
    obtain ⟨h1, h2⟩ := createOrder_created_inv db req now actor fid notify newO db' log h
    constructor
    · rw [h1]
      simp [newOrderOf, hnum]
    · rw [h2]
      simp
  · intro hmn
    constructor
    · rw [orderNumberValue_assign, orderNumberValue_assign]
      omega
    · intro heq
      have hv := congrArg orderNumberValue heq
      rw [orderNumberValue_assign, orderNumberValue_assign] at hv
      omega

/-- C8 (counterexample): the 1,000,000th order's number `OC-1000000`
is numerically above but lexicographically BELOW the 999,999th's
`OC-999999`, because the six-digit padding width is exceeded — so
"strictly greater lexicographically" fails. -/
theorem claim_C8_counterexample :
    orderNumberValue (assignOrderNumber 999998) <
      orderNumberValue (assignOrderNumber 999999) ∧
    strLexLt (assignOrderNumber 999999) (assignOrderNumber 999998) = true := by
  constructor <;> decide

/-- Product for the C8 creation witness. -/
def w8Product : Product := { productId := "p8", name := "Gadget" }

/-- Database for the C8 witness. -/
def w8DB : DB := { orders := [], catalog := [w8Product] }

/-- Request for the C8 witness. -/
def w8Req : OrderRequest := { customer := "c8", items := [{ product := "p8", quantity := 2 }] }

/-- The order the C8 witness request creates. -/
def w8Created : Order :=
  { orderId := 43, order_number := "OC-000001", customer := "c8",
    items := [{ itemId := 0, product := "p8", quantity := 2 }],
    createdBy := 5, createdAt := 0 }

/-- The database after the C8 witness creation. -/
def w8DBAfter : DB := { orders := [w8Created], catalog := [w8Product] }

/-- Witness for C8 at a concrete creation and the pair 3 < 7. -/
theorem claim_C8_witness :
    (w8Created.order_number = assignOrderNumber 0 ∧
      w8DBAfter.orders.length = w8DB.orders.length + 1) ∧
    orderNumberValue (assignOrderNumber 7) = 8 ∧
    (orderNumberValue (assignOrderNumber 3) < orderNumberValue (assignOrderNumber 7) ∧
      assignOrderNumber 3 ≠ assignOrderNumber 7) :=
  ⟨(claim_C8_amended w8DB w8Req 0 5 43 (.ok {}) w8Created w8DBAfter
      ["📧 Notificaciones enviadas: 0 exitosas, 0 fallidas de 0 configurados"] 3 7).1
      (by decide) rfl,
   (claim_C8_amended w8DB w8Req 0 5 43 (.ok {}) w8Created w8DBAfter [] 3 7).2.1,
   (claim_C8_amended w8DB w8Req 0 5 43 (.ok {}) w8Created w8DBAfter [] 3 7).2.2
     (by decide)⟩

/-! ## Claim C7 -/

/-- C7: on the normal-creation branch, the outcome of the notification
dispatch — a thrown error (`.error`) or a summary counting
per-recipient failures (`.ok`) — never changes the response or the
stored data: the same order is created and returned either way. -/
theorem claim_C7_notification_isolated (db : DB) (req : OrderRequest) (now : Int)
    (actor fid : Nat) (n₁ n₂ : Except String EmailSummary)
    (hok : (activeProducts db.catalog (req.items.map (·.product))).length =
      (req.items.map (·.product)).length)
    (hnodup : computeDuplicates (activeProducts db.catalog (req.items.map (·.product)))
      (recentOrders db.orders req.customer now) req.items = []) :
    ∃ newO,
      (createOrder db req now actor fid n₁).1 = .created newO ∧
      (createOrder db req now actor fid n₂).1 = .created newO ∧
      (createOrder db req now actor fid n₁).2.1 =
        (createOrder db req now actor fid n₂).2.1 ∧
      (createOrder db req now actor fid n₁).2.1.orders = db.orders ++ [newO] := by
  have e1 := createOrder_eq_created db req now actor fid n₁ hok hnodup
  have e2 := createOrder_eq_created db req now actor fid n₂ hok hnodup
  refine ⟨newOrderOf (activeProducts db.catalog (req.items.map (·.product)))
    db.orders.length req now actor fid, ?_, ?_, ?_, ?_⟩
  · rw [e1]
  · rw [e2]
  · rw [e1, e2]
  · rw [e1]

/-- Product for the C7 witness. -/
def w7Product : Product := { productId := "p7", name := "Cable" }

/-- Database for the C7 witness. -/
def w7DB : DB := { orders := [], catalog := [w7Product] }

/-- Request for the C7 witness. -/
def w7Req : OrderRequest := { customer := "c7", items := [{ product := "p7", quantity := 1 }] }

/-- Witness for C7: a thrown notification error versus a summary with
two per-recipient failures give the same created order. -/
theorem claim_C7_witness :
    (activeProducts w7DB.catalog (w7Req.items.map (·.product))).length =
      (w7Req.items.map (·.product)).length ∧
    computeDuplicates (activeProducts w7DB.catalog (w7Req.items.map (·.product)))
      (recentOrders w7DB.orders w7Req.customer 0) w7Req.items = [] ∧
    ∃ newO,
      (createOrder w7DB w7Req 0 5 44 (.error "SMTP down")).1 = .created newO ∧
      (createOrder w7DB w7Req 0 5 44
        (.ok { sent := 0, failed := 2, totalConfigured := 2 })).1 = .created newO ∧
      (createOrder w7DB w7Req 0 5 44 (.error "SMTP down")).2.1 =
        (createOrder w7DB w7Req 0 5 44
          (.ok { sent := 0, failed := 2, totalConfigured := 2 })).2.1 ∧
      (createOrder w7DB w7Req 0 5 44 (.error "SMTP down")).2.1.orders =
        w7DB.orders ++ [newO] :=
  ⟨by decide, by decide,
   claim_C7_notification_isolated w7DB w7Req 0 5 44 (.error "SMTP down")
     (.ok { sent := 0, failed := 2, totalConfigured := 2 }) (by decide) (by decide)⟩

/-! ## Claim C3 -/

/-- Every duplicate found by the inner scan comes from a scanned order
via the item-match `find?`. -/
theorem scanOrders_mem (products : List Product) (item : ReqItem) (ros : List Order)
    (d : DupRecord) (hd : d ∈ scanOrders products item ros) :
    ∃ o ∈ ros, ∃ ex, o.items.find? (dupItemMatch item) = some ex ∧
      d = mkDup products o ex item := by
  induction ros with
  | nil => simp [scanOrders] at hd
  | cons o rest ih =>
    rw [scanOrders] at hd
    split at hd
    · rename_i ex hfind
      rcases List.mem_cons.mp hd with h1 | h2
      · exact ⟨o, by simp, ex, hfind, h1⟩
      · obtain ⟨o', ho', ex', hex', hdd⟩ := ih h2
        exact ⟨o', by simp [ho'], ex', hex', hdd⟩
    · obtain ⟨o', ho', ex', hex', hdd⟩ := ih hd
      exact ⟨o', by simp [ho'], ex', hex', hdd⟩

/-- Every duplicate of the double loop comes from a request item and a
scanned order. -/
theorem computeDuplicates_mem (products : List Product) (ros : List Order)
    (items : List ReqItem) (d : DupRecord)
    (hd : d ∈ computeDuplicates products ros items) :
    ∃ item ∈ items, ∃ o ∈ ros, ∃ ex, o.items.find? (dupItemMatch item) = some ex ∧
      d = mkDup products o ex item := by
  induction items with
  | nil => simp [computeDuplicates] at hd
  | cons item rest ih =>
    rw [computeDuplicates] at hd
    rcases List.mem_append.mp hd with h1 | h2
    · obtain ⟨o, ho, ex, hex, hdd⟩ := scanOrders_mem products item ros d h1
      exact ⟨item, by simp, o, ho, ex, hex, hdd⟩
    · obtain ⟨item', hi', rest'⟩ := ih h2
      exact ⟨item', by simp [hi'], rest'⟩

/-- Membership in the 24-hour lookback query. -/
theorem recentOrders_mem (orders : List Order) (customer : String) (now : Int)
    (o : Order) (h : o ∈ recentOrders orders customer now) :
    o ∈ orders ∧ o.customer = customer ∧ now - hours24 ≤ o.createdAt ∧
      (o.status = .pendiente ∨ o.status = .compra) := by
  rw [recentOrders] at h
  have hm := List.mem_filter.mp h
  have h2 : (o.customer = customer ∧ now - hours24 ≤ o.createdAt) ∧
      (o.status = Status.pendiente ∨ o.status = Status.compra) := by
    simpa using hm.2
  exact ⟨hm.1, h2.1.1, h2.1.2, h2.2⟩

/-- The double loop finds nothing when the lookback query is empty. -/
theorem computeDuplicates_nil_ros (products : List Product) (items : List ReqItem) :
    computeDuplicates products [] items = [] := by
  induction items with
  | nil => rfl
  | cons item rest ih => simp [computeDuplicates, scanOrders, ih]

/-- When every same-customer order is either older than 24 hours or
past the pending/purchasing stage, the lookback query is empty. -/
theorem recentOrders_eq_nil (orders : List Order) (customer : String) (now : Int)
    (h : ∀ o ∈ orders, o.customer = customer →
      o.createdAt < now - hours24 ∨ (o.status ≠ .pendiente ∧ o.status ≠ .compra)) :
    recentOrders orders customer now = [] := by
  rw [recentOrders, List.filter_eq_nil_iff]
  intro o ho
  simp only [Bool.and_eq_true, Bool.or_eq_true, decide_eq_true_eq]
  rintro ⟨⟨hc, ht⟩, hs⟩
  rcases h o ho hc with h1 | ⟨h2, h3⟩
  · exact absurd ht (not_le.mpr h1)
  · rcases hs with hs | hs
    · exact h2 hs
    · exact h3 hs

/-- C3: every consolidation candidate is an order of the same customer
created within the last 24 hours with status pending or purchasing;
and when every same-customer order misses that window (e.g. is 30
hours old) or that status set, no merge happens — a new order is
appended instead. -/
theorem claim_C3_lookback_window (db : DB) (req : OrderRequest) (now : Int)
    (actor fid : Nat) (notify : Except String EmailSummary) :
    (∀ d ∈ computeDuplicates (activeProducts db.catalog (req.items.map (·.product)))
        (recentOrders db.orders req.customer now) req.items,
      ∃ o ∈ db.orders, o.orderId = d.orderId ∧ o.order_number = d.orderNumber ∧
        o.customer = req.customer ∧ now - hours24 ≤ o.createdAt ∧
        (o.status = .pendiente ∨ o.status = .compra)) ∧
    ((∀ o ∈ db.orders, o.customer = req.customer →
        o.createdAt < now - hours24 ∨ (o.status ≠ .pendiente ∧ o.status ≠ .compra)) →
      (activeProducts db.catalog (req.items.map (·.product))).length =
        (req.items.map (·.product)).length →
      ∃ newO, (createOrder db req now actor fid notify).1 = .created newO ∧
        (createOrder db req now actor fid notify).2.1.orders = db.orders ++ [newO]) := by
  constructor
  · intro d hd
    obtain ⟨item, -, o, ho, ex, -, hdd⟩ := computeDuplicates_mem _ _ _ _ hd
    obtain ⟨hmem, hcust, htime, hstat⟩ := recentOrders_mem _ _ _ _ ho
    subst hdd
    exact ⟨o, hmem, rfl, rfl, hcust, htime, hstat⟩
  · intro hold hok
    have hrec := recentOrders_eq_nil db.orders req.customer now hold
    have hnodup : computeDuplicates (activeProducts db.catalog (req.items.map (·.product)))
        (recentOrders db.orders req.customer now) req.items = [] := by
      rw [hrec]
      exact computeDuplicates_nil_ros _ _
    have e := createOrder_eq_created db req now actor fid notify hok hnodup
    exact ⟨_, by rw [e], by rw [e]⟩

/-- Product for the C3 witness scenarios. -/
def w3Product : Product := { productId := "p3", name := "Bolt" }

/-- A same-customer pending order created 2 hours before `w3Now`. -/
def w3RecentOrder : Order :=
  { orderId := 31, order_number := "OC-000031", customer := "c3",
    items := [{ itemId := 1, product := "p3", quantity := 3 }],
    createdBy := 1, createdAt := 28 * 60 * 60 * 1000 }

/-- The same order created 30 hours before `w3Now`. -/
def w3OldOrder : Order :=
  { orderId := 31, order_number := "OC-000031", customer := "c3",
    items := [{ itemId := 1, product := "p3", quantity := 3 }],
    createdBy := 1, createdAt := 0 }

/-- Database holding the 2-hour-old order. -/
def w3DBr : DB := { orders := [w3RecentOrder], catalog := [w3Product] }

/-- Database holding the 30-hour-old order. -/
def w3DBo : DB := { orders := [w3OldOrder], catalog := [w3Product] }

/-- The incoming request referencing the same product. -/
def w3Req : OrderRequest := { customer := "c3", items := [{ product := "p3", quantity := 2 }] }

/-- The request time of the C3 witness scenarios. -/
def w3Now : Int := 30 * 60 * 60 * 1000

/-- The duplicate candidate found in the 2-hour-old scenario. -/
def w3Dup : DupRecord :=
  { orderId := 31, orderNumber := "OC-000031", itemId := 1, productId := "p3",
    productName := "Bolt", existingQty := 3, newQty := 2, unitOfMeasure := "unidad" }

/-- Witness for C3: the candidate found 2 hours after creation indeed
lies in the window with pending status, and 30 hours after creation
no merge happens — a new order is created. -/
theorem claim_C3_witness :
    (∃ o ∈ w3DBr.orders, o.orderId = w3Dup.orderId ∧ o.order_number = w3Dup.orderNumber ∧
      o.customer = w3Req.customer ∧ w3Now - hours24 ≤ o.createdAt ∧
      (o.status = .pendiente ∨ o.status = .compra)) ∧
    ∃ newO, (createOrder w3DBo w3Req w3Now 5 45 (.ok {})).1 = .created newO ∧
      (createOrder w3DBo w3Req w3Now 5 45 (.ok {})).2.1.orders = w3DBo.orders ++ [newO] :=
  ⟨(claim_C3_lookback_window w3DBr w3Req w3Now 5 45 (.ok {})).1 w3Dup (by decide),
   (claim_C3_lookback_window w3DBo w3Req w3Now 5 45 (.ok {})).2 (by decide) (by decide)⟩

/-! ## Claims C6 and C9 -/

/-- With a well-formed catalog (distinct `_id`s), the looked-up
products have pairwise distinct ids. -/
theorem activeProducts_ids_nodup (catalog : List Product) (ids : List String)
    (hcat : (catalog.map (·.productId)).Nodup) :
    ((activeProducts catalog ids).map (·.productId)).Nodup :=
  hcat.sublist ((List.filter_sublist catalog).map (·.productId))

/-- Every looked-up product id is one of the requested ids. -/
theorem activeProducts_ids_subset (catalog : List Product) (ids : List String) :
    ∀ x ∈ (activeProducts catalog ids).map (·.productId), x ∈ ids := by
  intro x hx
  obtain ⟨p, hp, rfl⟩ := List.mem_map.mp hx
  have hf := List.mem_filter.mp hp
  have : ids.contains p.productId = true := by
    have h2 := hf.2
    simp only [Bool.and_eq_true] at h2
    exact h2.1
  simpa using this

/-- Every looked-up product is active and comes from the catalog. -/
theorem activeProducts_active (catalog : List Product) (ids : List String) :
    ∀ p ∈ activeProducts catalog ids, p ∈ catalog ∧ p.isActive = true := by
  intro p hp
  have hf := List.mem_filter.mp hp
  refine ⟨hf.1, ?_⟩
  have h2 := hf.2
  simp only [Bool.and_eq_true] at h2
  exact h2.2

/-- If some requested id has no active product in the catalog, the
lookup returns strictly fewer products than requested ids. -/
theorem activeProducts_length_lt_missing (catalog : List Product) (ids : List String)
    (hcat : (catalog.map (·.productId)).Nodup) (x : String) (hx : x ∈ ids)
    (hmiss : ∀ p ∈ catalog, p.productId = x → p.isActive = false) :
    (activeProducts catalog ids).length < ids.length := by
  set l := (activeProducts catalog ids).map (·.productId) with hl
  have hnd : l.Nodup := activeProducts_ids_nodup catalog ids hcat
  have hxnot : x ∉ l := by
    intro hmem
    obtain ⟨p, hp, hpx⟩ := List.mem_map.mp hmem
    obtain ⟨hpc, hact⟩ := activeProducts_active catalog ids p hp
    rw [hmiss p hpc hpx] at hact
    exact Bool.false_ne_true hact
  have hsub : l.toFinset ⊆ ids.toFinset.erase x := by
    rw [Finset.subset_erase]
    constructor
    · intro y hy
      exact List.mem_toFinset.mpr
        (activeProducts_ids_subset catalog ids y (List.mem_toFinset.mp hy))
    · exact fun hc => hxnot (List.mem_toFinset.mp hc)
  have h1 : (activeProducts catalog ids).length = l.toFinset.card := by
    rw [List.toFinset_card_of_nodup hnd, hl, List.length_map]
  have h2 : l.toFinset.card ≤ (ids.toFinset.erase x).card := Finset.card_le_card hsub
  have h3 : (ids.toFinset.erase x).card < ids.toFinset.card :=
    Finset.card_erase_lt_of_mem (List.mem_toFinset.mpr hx)
  have h4 : ids.toFinset.card ≤ ids.length := List.toFinset_card_le ids
  omega

/-- If the requested ids repeat, the lookup returns strictly fewer
products than requested ids (it can return each id at most once). -/
theorem activeProducts_length_lt_dup (catalog : List Product) (ids : List String)
    (hcat : (catalog.map (·.productId)).Nodup) (hdup : ¬ ids.Nodup) :
    (activeProducts catalog ids).length < ids.length := by
  set l := (activeProducts catalog ids).map (·.productId) with hl
  have hnd : l.Nodup := activeProducts_ids_nodup catalog ids hcat
  have hsub : l.toFinset ⊆ ids.toFinset := by
    intro y hy
    exact List.mem_toFinset.mpr
      (activeProducts_ids_subset catalog ids y (List.mem_toFinset.mp hy))
  have h1 : (activeProducts catalog ids).length = l.toFinset.card := by
    rw [List.toFinset_card_of_nodup hnd, hl, List.length_map]
  have h2 : l.toFinset.card ≤ ids.toFinset.card := Finset.card_le_card hsub
  have h3 : ids.toFinset.card = ids.dedup.length := List.card_toFinset ids
  have h4 : ids.dedup.length ≤ ids.length := (List.dedup_sublist ids).length_le
  have h5 : ids.dedup.length ≠ ids.length := by
    intro he
    exact hdup (((List.dedup_sublist ids).eq_of_length he) ▸ List.nodup_dedup ids)
  omega

/-- The availability check fails exactly on the 400 branch. -/
theorem createOrder_invalidRef (db : DB) (req : OrderRequest) (now : Int)
    (actor fid : Nat) (notify : Except String EmailSummary)
    (h : (activeProducts db.catalog (req.items.map (·.product))).length ≠
      (req.items.map (·.product)).length) :
    createOrder db req now actor fid notify =
      (.invalidReference productsUnavailableMsg, db, []) := by
  simp only [createOrder]
  rw [if_pos h]

/-- C6 (amended): when some referenced product id resolves to no
active product, order creation fails with the products-unavailable
error and the database is unchanged (no partial write); the error
message is the fixed string `productsUnavailableMsg` — it does NOT
identify which reference failed (see the counterexample). -/
theorem claim_C6_amended (db : DB) (req : OrderRequest) (now : Int)
    (actor fid : Nat) (notify : Except String EmailSummary)
    (hcat : (db.catalog.map (·.productId)).Nodup)
    (hmiss : ∃ ri ∈ req.items,
      ∀ p ∈ db.catalog, p.productId = ri.product → p.isActive = false) :
    createOrder db req now actor fid notify =
      (.invalidReference productsUnavailableMsg, db, []) := by
  obtain ⟨ri, hri, hr⟩ := hmiss
  refine createOrder_invalidRef db req now actor fid notify (Nat.ne_of_lt ?_)
  exact activeProducts_length_lt_missing db.catalog (req.items.map (·.product)) hcat
    ri.product (List.mem_map_of_mem (·.product) hri) hr

/-- Catalog for the C6 scenarios: it knows only product `a6`. -/
def w6Product : Product := { productId := "a6", name := "Known" }

/-- Database for the C6 scenarios. -/
def w6DB : DB := { orders := [], catalog := [w6Product] }

/-- A request referencing the missing product `x6`. -/
def w6ReqX : OrderRequest := { customer := "c6", items := [{ product := "x6", quantity := 1 }] }

/-- A request referencing the (different) missing product `y6`. -/
def w6ReqY : OrderRequest := { customer := "c6", items := [{ product := "y6", quantity := 1 }] }

/-- C6 (counterexample): two requests failing on *different* missing
references receive byte-identical error responses, so the error cannot
identify which reference failed. -/
theorem claim_C6_counterexample :
    createOrder w6DB w6ReqX 0 5 46 (.ok {}) =
      (.invalidReference productsUnavailableMsg, w6DB, []) ∧
    createOrder w6DB w6ReqY 0 5 46 (.ok {}) =
      (.invalidReference productsUnavailableMsg, w6DB, []) ∧
    w6ReqX.items ≠ w6ReqY.items := by
  refine ⟨?_, ?_, ?_⟩ <;> decide

/-- Witness for C6: the `x6` request fails generically, database
untouched. -/
theorem claim_C6_witness :
    (w6DB.catalog.map (·.productId)).Nodup ∧
    createOrder w6DB w6ReqX 7 5 47 (.ok {}) =
      (.invalidReference productsUnavailableMsg, w6DB, []) :=
  ⟨by decide,
   claim_C6_amended w6DB w6ReqX 7 5 47 (.ok {}) (by decide)
     ⟨{ product := "x6", quantity := 1 }, by decide, by decide⟩⟩

/-- C9: a request whose items list references the same product id
twice is rejected with the products-unavailable error even when every
referenced product exists and is active, because the number of
distinct resolved products is compared with the number of item
entries; the database is unchanged. -/
theorem claim_C9_duplicate_entries (db : DB) (req : OrderRequest) (now : Int)
    (actor fid : Nat) (notify : Except String EmailSummary)
    (hcat : (db.catalog.map (·.productId)).Nodup)
    (hdup : ¬ (req.items.map (·.product)).Nodup)
    (hactive : ∀ ri ∈ req.items,
      ∃ p ∈ db.catalog, p.productId = ri.product ∧ p.isActive = true) :
    createOrder db req now actor fid notify =
      (.invalidReference productsUnavailableMsg, db, []) :=
  createOrder_invalidRef db req now actor fid notify
    (Nat.ne_of_lt (activeProducts_length_lt_dup db.catalog
      (req.items.map (·.product)) hcat hdup))

/-- Catalog entry for the C9 witness: the product exists and is
active. -/
def w9Product : Product := { productId := "p9", name := "Twice" }

/-- Database for the C9 witness. -/
def w9DB : DB := { orders := [], catalog := [w9Product] }

/-- A request listing the same active product in two entries. -/
def w9Req : OrderRequest :=
  { customer := "c9",
    items := [{ product := "p9", quantity := 1 }, { product := "p9", quantity := 2 }] }

/-- Witness for C9: the double-entry request is rejected although
`p9` exists and is active. -/
theorem claim_C9_witness :
    (w9DB.catalog.map (·.productId)).Nodup ∧
    ¬ (w9Req.items.map (·.product)).Nodup ∧
    createOrder w9DB w9Req 0 5 48 (.ok {}) =
      (.invalidReference productsUnavailableMsg, w9DB, []) :=
  ⟨by decide, by decide,
   claim_C9_duplicate_entries w9DB w9Req 0 5 48 (.ok {}) (by decide) (by decide)
     (by
       intro ri hri
       refine ⟨w9Product, by simp [w9DB], ?_, rfl⟩
       simp only [w9Req, List.mem_cons, List.not_mem_nil, or_false] at hri
       rcases hri with rfl | rfl <;> rfl)⟩

/-! ## Claim C2 -/

/-- `Order.findById` on the embedded collection. -/
def findOrder? (orders : List Order) (oid : Nat) : Option Order :=
  orders.find? fun o => decide (o.orderId = oid)

/-- `items.findIndex(item => item._id === id)` turned into a lookup. -/
def findItem? (items : List OrderItem) (iid : Nat) : Option OrderItem :=
  items.find? fun it => decide (it.itemId = iid)

/-- The line of order `oid` with subdocument id `iid`, as stored. -/
def itemView (orders : List Order) (oid iid : Nat) : Option OrderItem :=
  (findOrder? orders oid).bind fun o => findItem? o.items iid

/-- `find?` by a key returns a given member when keys are pairwise
distinct. -/
theorem find?_key_eq {α β : Type} [DecidableEq β] (key : α → β) (l : List α) (a : α)
    (hnd : (l.map key).Nodup) (ha : a ∈ l) :
    l.find? (fun x => decide (key x = key a)) = some a := by
  induction l with
  | nil => cases ha
  | cons b t ih =>
    rw [List.map_cons, List.nodup_cons] at hnd
    rcases List.mem_cons.mp ha with rfl | hat
    · rw [List.find?_cons_of_pos _ (by simp)]
    · have hkey : key b ≠ key a := by
        intro he
        exact hnd.1 (he ▸ List.mem_map_of_mem key hat)
      rw [List.find?_cons_of_neg _ (by simpa using hkey)]
      exact ih hnd.2 hat

/-- Bumping the first item with id `iid` updates exactly the lookup at
`iid`. -/
theorem findItem?_bumpFirstItem (iid : Nat) (q : Rat) (items : List OrderItem)
    (it : OrderItem) (h : findItem? items iid = some it) :
    findItem? (bumpFirstItem iid q items) iid =
      some { it with quantity := it.quantity + q } := by
  induction items with
  | nil => simp [findItem?] at h
  | cons a t ih =>
    rw [bumpFirstItem]
    by_cases ha : a.itemId = iid
    · rw [if_pos ha]
      rw [findItem?, List.find?_cons_of_pos _ (by simpa using ha)] at h
      cases h
      rw [findItem?, List.find?_cons_of_pos _ (by simpa using ha)]
    · rw [if_neg ha]
      rw [findItem?, List.find?_cons_of_neg _ (by simpa using ha)] at h
      rw [findItem?, List.find?_cons_of_neg _ (by simpa using ha)]
      exact ih h

/-- Bumping id `iid` leaves lookups at other ids unchanged. -/
theorem findItem?_bumpFirstItem_ne (iid iid' : Nat) (q : Rat) (items : List OrderItem)
    (hne : iid ≠ iid') :
    findItem? (bumpFirstItem iid q items) iid' = findItem? items iid' := by
  induction items with
  | nil => rfl
  | cons a t ih =>
    rw [bumpFirstItem]
    by_cases ha : a.itemId = iid
    · rw [if_pos ha]
      have hh : ¬ (a.itemId = iid') := by
        rw [ha]
        exact hne
      rw [findItem?, List.find?_cons_of_neg _ (by simpa using hh),
        findItem?, List.find?_cons_of_neg _ (by simpa using hh)]
    · rw [if_neg ha]
      by_cases ha' : a.itemId = iid'
      · rw [findItem?, List.find?_cons_of_pos _ (by simpa using ha'),
          findItem?, List.find?_cons_of_pos _ (by simpa using ha')]
      · rw [findItem?, List.find?_cons_of_neg _ (by simpa using ha'),
          findItem?, List.find?_cons_of_neg _ (by simpa using ha')]
        exact ih

/-- One consolidation step rewrites the lookup at its target order id
to the bumped order. -/
theorem findOrder?_applyMergeOrders (d : DupRecord) (os : List Order) :
    findOrder? (applyMergeOrders d os) d.orderId =
      (findOrder? os d.orderId).map fun o =>
        { o with items := bumpFirstItem d.itemId d.newQty o.items } := by
  induction os with
  | nil => rfl
  | cons o t ih =>
    rw [applyMergeOrders]
    by_cases ho : o.orderId = d.orderId
    · rw [if_pos ho]
      rw [findOrder?, List.find?_cons_of_pos _ (by simpa using ho),
        findOrder?, List.find?_cons_of_pos _ (by simpa using ho)]
      rfl
    · rw [if_neg ho]
      rw [findOrder?, List.find?_cons_of_neg _ (by simpa using ho),
        findOrder?, List.find?_cons_of_neg _ (by simpa using ho)]
      exact ih

/-- One consolidation step leaves lookups at other order ids
unchanged. -/
theorem findOrder?_applyMergeOrders_ne (d : DupRecord) (os : List Order) (oid : Nat)
    (hne : d.orderId ≠ oid) :
    findOrder? (applyMergeOrders d os) oid = findOrder? os oid := by
  induction os with
  | nil => rfl
  | cons o t ih =>
    rw [applyMergeOrders]
    by_cases ho : o.orderId = d.orderId
    · rw [if_pos ho]
      have hh : ¬ (o.orderId = oid) := by
        rw [ho]
        exact hne
      rw [findOrder?, List.find?_cons_of_neg _ (by simpa using hh),
        findOrder?, List.find?_cons_of_neg _ (by simpa using hh)]
    · rw [if_neg ho]
      by_cases ho' : o.orderId = oid
      · rw [findOrder?, List.find?_cons_of_pos _ (by simpa using ho'),
          findOrder?, List.find?_cons_of_pos _ (by simpa using ho')]
      · rw [findOrder?, List.find?_cons_of_neg _ (by simpa using ho'),
          findOrder?, List.find?_cons_of_neg _ (by simpa using ho')]
        exact ih

/-- A bump at an id absent from the list changes nothing
(`itemIndex === -1`). -/
theorem bumpFirstItem_of_not_found (iid : Nat) (q : Rat) (items : List OrderItem)
    (h : findItem? items iid = none) : bumpFirstItem iid q items = items := by
  induction items with
  | nil => rfl
  | cons a t ih =>
    rw [findItem?] at h
    by_cases ha : a.itemId = iid
    · rw [List.find?_cons_of_pos _ (by simpa using ha)] at h
      cases h
    · rw [List.find?_cons_of_neg _ (by simpa using ha)] at h
      rw [bumpFirstItem, if_neg ha, ih h]

/-- One consolidation step, seen through `itemView` at its own target:
the stored quantity is bumped by the incoming quantity. -/
theorem itemView_applyMergeOrders_hit (d : DupRecord) (os : List Order) :
    itemView (applyMergeOrders d os) d.orderId d.itemId =
      (itemView os d.orderId d.itemId).map fun it =>
        { it with quantity := it.quantity + d.newQty } := by
  rw [itemView, itemView, findOrder?_applyMergeOrders]
  cases h : findOrder? os d.orderId with
  | none => rfl
  | some o =>
    simp only [Option.map_some', Option.some_bind]
    cases h2 : findItem? o.items d.itemId with
    | none =>
      rw [bumpFirstItem_of_not_found d.itemId d.newQty o.items h2, h2]
      rfl
    | some it =>
      rw [findItem?_bumpFirstItem d.itemId d.newQty o.items it h2]
      rfl

/-- One consolidation step, seen through `itemView` at any other
(order, item) pair: unchanged. -/
theorem itemView_applyMergeOrders_miss (d : DupRecord) (os : List Order)
    (oid iid : Nat) (h : d.orderId ≠ oid ∨ d.itemId ≠ iid) :
    itemView (applyMergeOrders d os) oid iid = itemView os oid iid := by
  by_cases ho : d.orderId = oid
  · subst ho
    have hiid : d.itemId ≠ iid := h.resolve_left (fun hc => hc rfl)
    rw [itemView, itemView, findOrder?_applyMergeOrders]
    cases hf : findOrder? os d.orderId with
    | none => rfl
    | some o =>
      simp only [Option.map_some', Option.some_bind]
      exact findItem?_bumpFirstItem_ne d.itemId iid d.newQty o.items hiid
  · rw [itemView, itemView, findOrder?_applyMergeOrders_ne d os oid ho]

/-- The consolidation fold leaves an (order, item) pair untouched when
no processed duplicate targets it. -/
theorem itemView_mergeAll_miss (dups : List DupRecord) (os : List Order)
    (oid iid : Nat) (h : ∀ b ∈ dups, b.orderId ≠ oid ∨ b.itemId ≠ iid) :
    itemView (mergeAll os dups) oid iid = itemView os oid iid := by
  induction dups generalizing os with
  | nil => rfl
  | cons d rest ih =>
    simp only [mergeAll, List.foldl_cons]
    rw [show List.foldl (fun os d => applyMergeOrders d os) (applyMergeOrders d os) rest =
      mergeAll (applyMergeOrders d os) rest from rfl]
    rw [ih (applyMergeOrders d os) fun b hb => h b (by simp [hb])]
    exact itemView_applyMergeOrders_miss d os oid iid (h d (by simp))

/-- The consolidation fold, seen through `itemView` at a processed
duplicate (duplicates targeting pairwise distinct lines): exactly one
bump by that duplicate's incoming quantity. -/
theorem itemView_mergeAll_hit (dups : List DupRecord) (os : List Order)
    (d : DupRecord) (hd : d ∈ dups)
    (hdist : dups.Pairwise fun a b => a.orderId ≠ b.orderId ∨ a.itemId ≠ b.itemId) :
    itemView (mergeAll os dups) d.orderId d.itemId =
      (itemView os d.orderId d.itemId).map fun it =>
        { it with quantity := it.quantity + d.newQty } := by
  induction dups generalizing os with
  | nil => cases hd
  | cons d₀ rest ih =>
    rw [List.pairwise_cons] at hdist
    simp only [mergeAll, List.foldl_cons]
    rw [show List.foldl (fun os d => applyMergeOrders d os) (applyMergeOrders d₀ os) rest =
      mergeAll (applyMergeOrders d₀ os) rest from rfl]
    rcases List.mem_cons.mp hd with rfl | hdr
    · rw [itemView_mergeAll_miss rest (applyMergeOrders d os) d.orderId d.itemId
        fun b hb => (hdist.1 b hb).imp Ne.symm Ne.symm]
      exact itemView_applyMergeOrders_hit d os
    · rw [ih (applyMergeOrders d₀ os) hdr hdist.2]
      rw [itemView_applyMergeOrders_miss d₀ os d.orderId d.itemId (hdist.1 d hdr)]

/-- One consolidation step keeps the number of stored orders. -/
theorem applyMergeOrders_length (d : DupRecord) (os : List Order) :
    (applyMergeOrders d os).length = os.length := by
  induction os with
  | nil => rfl
  | cons o t ih =>
    rw [applyMergeOrders]
    split <;> simp [ih]

/-- The consolidation fold keeps the number of stored orders: no new
order aggregate is created. -/
theorem mergeAll_length (os : List Order) (dups : List DupRecord) :
    (mergeAll os dups).length = os.length := by
  induction dups generalizing os with
  | nil => rfl
  | cons d rest ih =>
    simp only [mergeAll, List.foldl_cons]
    rw [show List.foldl (fun os d => applyMergeOrders d os) (applyMergeOrders d os) rest =
      mergeAll (applyMergeOrders d os) rest from rfl]
    rw [ih (applyMergeOrders d os), applyMergeOrders_length]

/-- When the availability check passes and at least one duplicate
candidate exists, `POST /api/orders` takes the consolidation branch. -/
theorem createOrder_eq_merged (db : DB) (req : OrderRequest) (now : Int)
    (actor fid : Nat) (notify : Except String EmailSummary)
    (hok : (activeProducts db.catalog (req.items.map (·.product))).length =
      (req.items.map (·.product)).length)
    (hdups : 0 < (orderDuplicates db req now).length) :
    createOrder db req now actor fid notify =
      (.merged mergedMsg (orderDuplicates db req now).length
        ((orderDuplicates db req now).map (·.orderNumber)),
       { db with orders := mergeAll db.orders (orderDuplicates db req now) }, []) := by
  simp only [createOrder]
  rw [hok, if_neg (fun hc => hc rfl), if_pos hdups]

/-- C2: whenever at least one duplicate candidate exists (and the
candidates target pairwise distinct lines, which the distinct-products
check guarantees in practice), creation short-circuits into the
consolidation branch: the response is the success tagged `merged`
reporting the number of merged lines and the affected order numbers,
no new order aggregate is created, and each matched line's stored
quantity becomes its existing quantity plus the incoming quantity
(e.g. 3 + 2 = 5 in the witness). -/
theorem claim_C2_automerge (db : DB) (req : OrderRequest) (now : Int)
    (actor fid : Nat) (notify : Except String EmailSummary)
    (hoid : (db.orders.map (·.orderId)).Nodup)
    (hiid : ∀ o ∈ db.orders, (o.items.map (·.itemId)).Nodup)
    (hok : (activeProducts db.catalog (req.items.map (·.product))).length =
      (req.items.map (·.product)).length)
    (hdups : 0 < (orderDuplicates db req now).length)
    (hdist : (orderDuplicates db req now).Pairwise
      fun a b => a.orderId ≠ b.orderId ∨ a.itemId ≠ b.itemId) :
    (createOrder db req now actor fid notify).1 =
      .merged mergedMsg (orderDuplicates db req now).length
        ((orderDuplicates db req now).map (·.orderNumber)) ∧
    (createOrder db req now actor fid notify).2.1.orders.length = db.orders.length ∧
    ∀ d ∈ orderDuplicates db req now,
      ∃ ri ∈ req.items, ri.product = d.productId ∧ ri.quantity = d.newQty ∧
        ∃ ex, itemView db.orders d.orderId d.itemId = some ex ∧
          ex.quantity = d.existingQty ∧
          itemView (createOrder db req now actor fid notify).2.1.orders
              d.orderId d.itemId =
            some { ex with quantity := d.existingQty + d.newQty } := by
  have e := createOrder_eq_merged db req now actor fid notify hok hdups
  refine ⟨by rw [e], by rw [e]; exact mergeAll_length db.orders _, ?_⟩
  intro d hd
  obtain ⟨item, hitem, o, ho, ex, hex, hdd⟩ := computeDuplicates_mem _ _ _ d hd
  obtain ⟨hmem, -, -, -⟩ := recentOrders_mem _ _ _ _ ho
  have hfo : findOrder? db.orders o.orderId = some o := by
    rw [findOrder?]
    exact find?_key_eq (fun x : Order => x.orderId) db.orders o hoid hmem
  have hexmem : ex ∈ o.items := List.mem_of_find?_eq_some hex
  have hfi : findItem? o.items ex.itemId = some ex := by
    rw [findItem?]
    exact find?_key_eq (fun x : OrderItem => x.itemId) o.items ex (hiid o hmem) hexmem
  have hdoid : d.orderId = o.orderId := by rw [hdd]; rfl
  have hdiid : d.itemId = ex.itemId := by rw [hdd]; rfl
  have hdnq : d.newQty = item.quantity := by rw [hdd]; rfl
  have hdeq : d.existingQty = ex.quantity := by rw [hdd]; rfl
  have hdpid : d.productId = item.product := by rw [hdd]; rfl
  refine ⟨item, hitem, hdpid.symm, hdnq.symm, ex, ?_, hdeq.symm, ?_⟩
  · rw [itemView, hdoid, hdiid, hfo]
    exact hfi
  · rw [e]
    show itemView (mergeAll db.orders (orderDuplicates db req now)) d.orderId d.itemId =
      some { ex with quantity := d.existingQty + d.newQty }
    rw [itemView_mergeAll_hit _ db.orders d hd hdist, itemView, hdoid, hdiid, hfo]
    show (findItem? o.items ex.itemId).map _ = _
    rw [hfi]
    simp only [Option.map_some']
    rw [hdeq]

/-- Product for the C2 witness. -/
def w2Product : Product := { productId := "p2", name := "Prod P" }

/-- A pending order of customer `c2` created 2 hours before `w2Now`,
holding 3 units of `p2`. -/
def w2Order : Order :=
  { orderId := 21, order_number := "OC-000021", customer := "c2",
    items := [{ itemId := 7, product := "p2", quantity := 3 }],
    createdBy := 1, createdAt := 0 }

/-- Database for the C2 witness. -/
def w2DB : DB := { orders := [w2Order], catalog := [w2Product] }

/-- Incoming request for 2 more units of `p2`. -/
def w2Req : OrderRequest := { customer := "c2", items := [{ product := "p2", quantity := 2 }] }

/-- Request time of the C2 witness: 2 hours after `w2Order`. -/
def w2Now : Int := 2 * 60 * 60 * 1000

/-- The duplicate candidate the scan finds. -/
def w2Dup : DupRecord :=
  { orderId := 21, orderNumber := "OC-000021", itemId := 7, productId := "p2",
    productName := "Prod P", existingQty := 3, newQty := 2, unitOfMeasure := "unidad" }

/-- Witness for C2: existing quantity 3 plus incoming 2 gives a stored
quantity of 5, one merged line, no new order. -/
theorem claim_C2_witness :
    orderDuplicates w2DB w2Req w2Now = [w2Dup] ∧
    itemView (createOrder w2DB w2Req w2Now 5 49 (.ok {})).2.1.orders 21 7 =
      some { itemId := 7, product := "p2", quantity := 5 } ∧
    ((createOrder w2DB w2Req w2Now 5 49 (.ok {})).1 =
      .merged mergedMsg (orderDuplicates w2DB w2Req w2Now).length
        ((orderDuplicates w2DB w2Req w2Now).map (·.orderNumber)) ∧
    (createOrder w2DB w2Req w2Now 5 49 (.ok {})).2.1.orders.length =
      w2DB.orders.length ∧
    ∀ d ∈ orderDuplicates w2DB w2Req w2Now,
      ∃ ri ∈ w2Req.items, ri.product = d.productId ∧ ri.quantity = d.newQty ∧
        ∃ ex, itemView w2DB.orders d.orderId d.itemId = some ex ∧
          ex.quantity = d.existingQty ∧
          itemView (createOrder w2DB w2Req w2Now 5 49 (.ok {})).2.1.orders
              d.orderId d.itemId =
            some { ex with quantity := d.existingQty + d.newQty }) :=
  ⟨by decide, by with_unfolding_all decide,
   claim_C2_automerge w2DB w2Req w2Now 5 49 (.ok {}) (by decide) (by decide)
     (by decide) (by decide) (by decide)⟩
